import Mathlib

/-!
Verification of the `rust-cross-compile` command-line utility (`src/main.rs`).

The program is a straight-line sequence: parse one positional `message`
argument with clap, load the bundled standard FIGfont, convert the message
to an ASCII-art figure, and print the figure followed by a newline.  Both
`unwrap` calls abort the process with a panic (non-zero exit, diagnostic on
standard error) when the corresponding step fails.

The argument parser (clap) and the font-rendering capability (figlet-rs)
are external dependencies whose sources are not part of this repository;
they are modelled here from the specification's description of the consumed
interfaces:
  `load_standard_font() -> FontResource | Error`
  `render(FontResource, text) -> TextBlock | Error`
-/

namespace FigletCtlSpec

/-- Observable outcome of one process invocation: exit status, the bytes
written to standard output, and the bytes written to standard error. -/
structure ProcResult where
  exitCode : Nat
  stdout : String
  stderr : String
deriving Repr, DecidableEq

/-- Modelled from the spec: the external font-rendering capability consumed
by the program, with `load_standard_font() -> FontResource | Error` and
`render(FontResource, text) -> TextBlock | Error` where a text block is a
sequence of lines.  The resource type `F` is opaque to the program. -/
structure FontCapability (F : Type) where
  load_standard_font : Except String F
  render : F → String → Except String (List String)

/-- Outcome of clap argument parsing for the `FigletCtl` struct: either the
parsed positional `message`, a help request, or a usage error. -/
inductive ParseOutcome where
  | ok (message : String)
  | help
  | usageError (diagnostic : String)
deriving Repr, DecidableEq

/-- Modelled from the spec: clap derive-based parsing of the argument vector
(program name excluded) for a struct with one required positional string
`message`.  A missing argument or extra arguments give a usage error;
`--help` / `-h` are supported by convention of the parsing facility. -/
def parseArgs (argv : List String) : ParseOutcome :=
  match argv with
  | [] => .usageError "the following required arguments were not provided: <MESSAGE>"
  | [m] => if m = "--help" ∨ m = "-h" then .help else .ok m
  | _ => .usageError "unexpected extra arguments"

/-- Auto-generated usage text of the argument-parsing facility. -/
def usageText : String := "Usage: rust-cross-compile <MESSAGE>"

/-- Diagnostic printed to standard error when a Rust `unwrap` panics. -/
def panicMessage (e : String) : String := "thread main panicked: " ++ e

/-- The `Display` form of a figure: its lines joined by newlines. -/
def blockText (block : List String) : String := String.intercalate "\n" block

/-- Shallow embedding of `main` from `src/main.rs`, parameterised by the
external font capability: parse the arguments, load the standard font
(`unwrap`), convert the message (`unwrap`), print the figure with a
trailing newline.  Parse errors exit with clap's status 2; a panicking
`unwrap` exits with the Rust panic status 101. -/
def mainRun {F : Type} (cap : FontCapability F) (argv : List String) : ProcResult :=
  match parseArgs argv with
  | .help => ⟨0, usageText ++ "\n", ""⟩
  | .usageError e => ⟨2, "", e ++ "\n" ++ usageText ++ "\n"⟩
  | .ok msg =>
    match cap.load_standard_font with
    | .error e => ⟨101, "", panicMessage e⟩
    | .ok font =>
      match cap.render font msg with
      | .error e => ⟨101, "", panicMessage e⟩
      | .ok block => ⟨0, blockText block ++ "\n", ""⟩

/-- A character is printable ASCII when its code point lies in `[0x20, 0x7e]`. -/
def printableAscii (c : Char) : Bool :=
  (0x20 ≤ c.toNat) && (c.toNat ≤ 0x7e)

/-- Modelled from the spec: the standard font, "a built-in, fixed glyph set
defining how each supported character is rendered as a small block of text
lines".  `height` is the common glyph height and `glyph` maps each
supported character to its block of `height` lines. -/
structure StandardFont where
  height : Nat
  glyph : Char → Option (List String)

/-- Modelled from the spec: the glyph of a supported (printable-ASCII)
character in the standard font.  The spec leaves the glyph shapes opaque,
so each supported character is modelled as an arbitrary fixed block whose
height is the FIGlet standard-font glyph height of 6 lines. -/
def standardGlyph (c : Char) : Option (List String) :=
  if printableAscii c then some (List.replicate 6 (String.mk [c])) else none

/-- Modelled from the spec: the bundled standard font resource. -/
def standardFont : StandardFont := ⟨6, standardGlyph⟩

/-- Line `i` of a glyph block (empty when absent). -/
def glyphLine (g : Option (List String)) (i : Nat) : String :=
  match g with
  | some ls => ls.getD i ""
  | none => ""

/-- Modelled from the spec: rendering composes "the per-character glyph
blocks for an entire message" into a block of `height` lines; a character
unsupported by the font is a rendering failure (Scenario 3), and the empty
message is a rendering failure per the library's behavior for empty input
(Scenario 2 leaves either outcome admissible). -/
def renderStandard (f : StandardFont) (text : String) : Except String (List String) :=
  if text = "" then .error "the message is empty"
  else if text.data.all (fun c => (f.glyph c).isSome) then
    .ok ((List.range f.height).map (fun i =>
      String.join (text.data.map (fun c => glyphLine (f.glyph c) i))))
  else .error "the message contains a character unsupported by the standard font"

/-- Modelled from the spec: the concrete capability the program consumes,
with the bundled standard font loading successfully. -/
def standardCapability : FontCapability StandardFont :=
  ⟨.ok standardFont, renderStandard⟩

/-- One full invocation of the program with the given argument vector. -/
def runProgram (argv : List String) : ProcResult :=
  mainRun standardCapability argv

/-- A capability whose font resource fails to load and whose renderer always
fails, exercising the failure branches of `mainRun`. -/
def failingCapability : FontCapability Unit :=
  ⟨.error "font load failed", fun _ _ => .error "render failed"⟩

/-- A degenerate capability that always renders a one-line block, used to
show that parse failures do not consult the capability at all. -/
def constantCapability : FontCapability Unit :=
  ⟨.ok (), fun _ _ => .ok ["X"]⟩

/-- The phases of the straight-line `main`: argument parsing, font loading,
rendering, printing, process exit. -/
inductive MainPhase (F : Type) where
  | start (argv : List String)
  | parsed (message : String)
  | loaded (message : String) (font : F)
  | rendered (block : List String)
  | exited (result : ProcResult)

/-- One step of the straight-line `main`: each phase performs exactly one of
the three calls of `src/main.rs` (parse, load-and-unwrap, convert-and-unwrap)
or the final print, and `exited` is terminal. -/
def mainStep {F : Type} (cap : FontCapability F) : MainPhase F → MainPhase F
  | .start argv =>
    match parseArgs argv with
    | .help => .exited ⟨0, usageText ++ "\n", ""⟩
    | .usageError e => .exited ⟨2, "", e ++ "\n" ++ usageText ++ "\n"⟩
    | .ok m => .parsed m
  | .parsed m =>
    match cap.load_standard_font with
    | .error e => .exited ⟨101, "", panicMessage e⟩
    | .ok f => .loaded m f
  | .loaded m f =>
    match cap.render f m with
    | .error e => .exited ⟨101, "", panicMessage e⟩
    | .ok b => .rendered b
  | .rendered b => .exited ⟨0, blockText b ++ "\n", ""⟩
  | .exited r => .exited r

section Lemmas

/-- Appending a newline never yields the empty string. -/
theorem append_newline_ne_empty (s : String) : s ++ "\n" ≠ "" := by
  intro h
  have h2 := congrArg String.length h
  simp [String.length_append] at h2
  exact absurd h2.2 (by decide)

/-- A panic diagnostic is never empty. -/
theorem panicMessage_ne_empty (e : String) : panicMessage e ≠ "" := by
  intro h
  have h2 := congrArg String.length (show "thread main panicked: " ++ e = "" from h)
  simp [String.length_append] at h2
  exact absurd h2.1 (by decide)

/-- The standard font has a glyph exactly for the printable-ASCII characters. -/
theorem standardGlyph_isSome (c : Char) :
    (standardGlyph c).isSome = printableAscii c := by
  by_cases h : printableAscii c = true
  · simp [standardGlyph, h]
  · simp [standardGlyph, h]

/-- Shape of `mainRun` when parsing produced the message and both library
calls succeed. -/
theorem mainRun_ok {F : Type} (cap : FontCapability F) (argv : List String)
    (m : String) (f : F) (b : List String)
    (hp : parseArgs argv = .ok m) (hl : cap.load_standard_font = .ok f)
    (hr : cap.render f m = .ok b) :
    mainRun cap argv = ⟨0, blockText b ++ "\n", ""⟩ := by
  simp [mainRun, hp, hl, hr]

/-- Shape of `mainRun` when the font resource fails to load. -/
theorem mainRun_loadError {F : Type} (cap : FontCapability F)
    (argv : List String) (m e : String)
    (hp : parseArgs argv = .ok m) (hl : cap.load_standard_font = .error e) :
    mainRun cap argv = ⟨101, "", panicMessage e⟩ := by
  simp [mainRun, hp, hl]

/-- Shape of `mainRun` when rendering fails. -/
theorem mainRun_renderError {F : Type} (cap : FontCapability F)
    (argv : List String) (m e : String) (f : F)
    (hp : parseArgs argv = .ok m) (hl : cap.load_standard_font = .ok f)
    (hr : cap.render f m = .error e) :
    mainRun cap argv = ⟨101, "", panicMessage e⟩ := by
  simp [mainRun, hp, hl, hr]

/-- Shape of `mainRun` when argument parsing fails. -/
theorem mainRun_usageError {F : Type} (cap : FontCapability F)
    (argv : List String) (e : String) (hp : parseArgs argv = .usageError e) :
    mainRun cap argv = ⟨2, "", e ++ "\n" ++ usageText ++ "\n"⟩ := by
  simp [mainRun, hp]

end Lemmas

/-- Claim C1: whenever argument parsing yields a message but the font
resource fails to load, or rendering fails, the program terminates with a
non-zero exit status, reports the underlying failure on standard error, and
writes no rendered output to standard output. -/
theorem C1_failure_is_fatal {F : Type} (cap : FontCapability F)
    (argv : List String) (m : String) (hp : parseArgs argv = .ok m)
    (hf : (∃ e, cap.load_standard_font = .error e) ∨
      (∃ f e, cap.load_standard_font = .ok f ∧ cap.render f m = .error e)) :
    (mainRun cap argv).exitCode ≠ 0 ∧ (mainRun cap argv).stdout = "" ∧
      (mainRun cap argv).stderr ≠ "" := by
  rcases hf with ⟨e, hl⟩ | ⟨f, e, hl, hr⟩
  · rw [mainRun_loadError cap argv m e hp hl]
    exact ⟨by simp, rfl, panicMessage_ne_empty e⟩
  · rw [mainRun_renderError cap argv m e f hp hl hr]
    exact ⟨by simp, rfl, panicMessage_ne_empty e⟩

/-- Witness for C1 at a concrete capability whose font fails to load. -/
theorem C1_failure_is_fatal_witness :
    (mainRun failingCapability ["HI"]).exitCode ≠ 0 ∧
      (mainRun failingCapability ["HI"]).stdout = "" ∧
      (mainRun failingCapability ["HI"]).stderr ≠ "" :=
  C1_failure_is_fatal failingCapability ["HI"] "HI" (by decide)
    (Or.inl ⟨"font load failed", rfl⟩)

/-- Claim C2: invoking the program with no arguments exits with a non-zero
status and produces no output on standard output, whatever the font
capability is. -/
theorem C2_no_arguments_is_usage_error {F : Type} (cap : FontCapability F) :
    (mainRun cap []).exitCode ≠ 0 ∧ (mainRun cap []).stdout = "" := by
  rw [mainRun_usageError cap []
    "the following required arguments were not provided: <MESSAGE>" rfl]
  exact ⟨by decide, rfl⟩

/-- Claim C4: the observable outcome is a pure function of the parsed
message: any two argument vectors that parse to the same message produce
identical results (byte-identical standard output in particular), since
rendering depends only on the message and the fixed capability. -/
theorem C4_same_message_same_output {F : Type} (cap : FontCapability F)
    (argv1 argv2 : List String) (m : String)
    (h1 : parseArgs argv1 = .ok m) (h2 : parseArgs argv2 = .ok m) :
    mainRun cap argv1 = mainRun cap argv2 := by
  unfold mainRun
  rw [h1, h2]

/-- Witness for C4: two invocations with the message "HI" coincide. -/
theorem C4_same_message_same_output_witness :
    mainRun standardCapability ["HI"] = mainRun standardCapability ["HI"] :=
  C4_same_message_same_output standardCapability ["HI"] ["HI"] "HI"
    (by decide) (by decide)

/-- Claim C5: on success the program writes exactly the rendered block
followed by a trailing newline to standard output, writes nothing to
standard error, and exits with status 0. -/
theorem C5_success_prints_block_and_newline {F : Type} (cap : FontCapability F)
    (argv : List String) (m : String) (f : F) (b : List String)
    (hp : parseArgs argv = .ok m) (hl : cap.load_standard_font = .ok f)
    (hr : cap.render f m = .ok b) :
    (mainRun cap argv).exitCode = 0 ∧
      (mainRun cap argv).stdout = blockText b ++ "\n" ∧
      (mainRun cap argv).stderr = "" := by
  rw [mainRun_ok cap argv m f b hp hl hr]
  exact ⟨rfl, rfl, rfl⟩

/-- Witness for C5 at the standard capability on the message "HI". -/
theorem C5_success_prints_block_and_newline_witness :
    (mainRun standardCapability ["HI"]).exitCode = 0 ∧
      (mainRun standardCapability ["HI"]).stdout =
        blockText ["HI", "HI", "HI", "HI", "HI", "HI"] ++ "\n" ∧
      (mainRun standardCapability ["HI"]).stderr = "" :=
  C5_success_prints_block_and_newline standardCapability ["HI"] "HI"
    standardFont ["HI", "HI", "HI", "HI", "HI", "HI"] (by decide) rfl rfl

/-- Claim C3: for every non-empty printable-ASCII message, the invocation
with that single argument exits with status 0 and produces non-empty output
on standard output. -/
theorem C3_printable_message_succeeds (m : String) (h1 : m ≠ "")
    (h2 : m.data.all printableAscii = true) :
    (runProgram [m]).exitCode = 0 ∧ (runProgram [m]).stdout ≠ "" := by
  by_cases hh : m = "--help" ∨ m = "-h"
  · have hp : parseArgs [m] = .help := by simp [parseArgs, hh]
    have hrun : runProgram [m] = ⟨0, usageText ++ "\n", ""⟩ := by
      simp [runProgram, mainRun, hp]
    rw [hrun]
    exact ⟨rfl, append_newline_ne_empty usageText⟩
  · have hp : parseArgs [m] = .ok m := by simp [parseArgs, hh]
    have hall : m.data.all (fun c => (standardFont.glyph c).isSome) = true := by
      rw [List.all_eq_true] at h2 ⊢
      intro c hc
      rw [show standardFont.glyph c = standardGlyph c from rfl,
        standardGlyph_isSome]
      exact h2 c hc
    have hr : renderStandard standardFont m
        = .ok ((List.range standardFont.height).map (fun i =>
            String.join (m.data.map (fun c =>
              glyphLine (standardFont.glyph c) i)))) := by
      simp [renderStandard, h1, hall]
    rw [runProgram, mainRun_ok standardCapability [m] m standardFont _ hp rfl hr]
    exact ⟨rfl, append_newline_ne_empty _⟩

/-- Witness for C3 at the concrete message "HI". -/
theorem C3_printable_message_succeeds_witness :
    (runProgram ["HI"]).exitCode = 0 ∧ (runProgram ["HI"]).stdout ≠ "" :=
  C3_printable_message_succeeds "HI" (by decide) (by decide)

/-- Claim C6: invoking the program with the empty string exits with code 0,
or terminates as a well-defined rendering failure: non-zero exit, no output
on standard output, a diagnostic on standard error.  In the model the
renderer rejects the empty message, so the second disjunct holds. -/
theorem C6_empty_message_outcome :
    (runProgram [""]).exitCode = 0 ∨
      ((runProgram [""]).exitCode ≠ 0 ∧ (runProgram [""]).stdout = "" ∧
        (runProgram [""]).stderr ≠ "") := by
  right
  exact ⟨by decide, by decide, by decide⟩

/-- Claim C7: a message containing a character the standard font does not
support exits with a non-zero status, writes a diagnostic to standard error,
and writes nothing to standard output. -/
theorem C7_unsupported_character_is_fatal (m : String)
    (h : m.data.any (fun c => !(printableAscii c)) = true) :
    (runProgram [m]).exitCode ≠ 0 ∧ (runProgram [m]).stdout = "" ∧
      (runProgram [m]).stderr ≠ "" := by
  have hm1 : ¬(m = "--help" ∨ m = "-h") := by
    rintro (hEq | hEq) <;> subst hEq <;> exact absurd h (by decide)
  have hp : parseArgs [m] = .ok m := by simp [parseArgs, hm1]
  have hallf : m.data.all (fun c => (standardFont.glyph c).isSome) = false := by
    rw [List.any_eq_true] at h
    obtain ⟨c, hc, hcf⟩ := h
    apply Bool.eq_false_iff.mpr
    intro hall
    rw [List.all_eq_true] at hall
    have hg := hall c hc
    rw [show standardFont.glyph c = standardGlyph c from rfl,
      standardGlyph_isSome] at hg
    simp [hg] at hcf
  have hne : m ≠ "" := by
    intro hEq; subst hEq; exact absurd h (by decide)
  have hr : renderStandard standardFont m
      = .error "the message contains a character unsupported by the standard font" := by
    simp [renderStandard, hne, hallf]
  rw [runProgram, mainRun_renderError standardCapability [m] m _ standardFont hp rfl hr]
  exact ⟨by simp, rfl, panicMessage_ne_empty _⟩

/-- Witness for C7 at the concrete message containing a tab character. -/
theorem C7_unsupported_character_is_fatal_witness :
    (runProgram ["a\tb"]).exitCode ≠ 0 ∧ (runProgram ["a\tb"]).stdout = "" ∧
      (runProgram ["a\tb"]).stderr ≠ "" :=
  C7_unsupported_character_is_fatal "a\tb" (by decide)

/-- Claim C8: invoking the program with "HI" exits with code 0 and prints a
non-empty block whose line count equals the glyph height of the standard
font, which is more than one line. -/
theorem C8_hi_block_has_glyph_height :
    (runProgram ["HI"]).exitCode = 0 ∧
      (runProgram ["HI"]).stdout ≠ "" ∧
      ∃ b : List String,
        standardCapability.render standardFont "HI" = .ok b ∧
        (runProgram ["HI"]).stdout = blockText b ++ "\n" ∧
        b.length = standardFont.height ∧ 1 < standardFont.height :=
  ⟨by decide, by decide,
    ["HI", "HI", "HI", "HI", "HI", "HI"], rfl, by decide, rfl, by decide⟩

/-- Claim C9: argument validation happens strictly before any other work:
when parsing fails, the outcome is independent of the font capability (the
font is never loaded and rendering is never attempted) and nothing is
written to standard output. -/
theorem C9_parse_failure_precedes_font_work {F G : Type}
    (cap1 : FontCapability F) (cap2 : FontCapability G) (argv : List String)
    (e : String) (h : parseArgs argv = .usageError e) :
    (mainRun cap1 argv).exitCode = (mainRun cap2 argv).exitCode ∧
      (mainRun cap1 argv).stdout = (mainRun cap2 argv).stdout ∧
      (mainRun cap1 argv).stderr = (mainRun cap2 argv).stderr ∧
      (mainRun cap1 argv).stdout = "" := by
  rw [mainRun_usageError cap1 argv e h, mainRun_usageError cap2 argv e h]
  exact ⟨rfl, rfl, rfl, rfl⟩

/-- Witness for C9: with no arguments, the standard capability and a
degenerate capability are indistinguishable. -/
theorem C9_parse_failure_precedes_font_work_witness :
    (mainRun standardCapability []).exitCode =
        (mainRun constantCapability []).exitCode ∧
      (mainRun standardCapability []).stdout =
        (mainRun constantCapability []).stdout ∧
      (mainRun standardCapability []).stderr =
        (mainRun constantCapability []).stderr ∧
      (mainRun standardCapability []).stdout = "" :=
  C9_parse_failure_precedes_font_work standardCapability constantCapability []
    "the following required arguments were not provided: <MESSAGE>" rfl

/-- Claim C10: the program terminates on every argument vector: the
straight-line `main` reaches its terminal `exited` phase within four steps,
the terminal phase is a fixed point of the step function, and the result it
exits with is exactly `mainRun`. -/
theorem C10_main_terminates {F : Type} (cap : FontCapability F)
    (argv : List String) :
    (mainStep cap)^[4] (.start argv) = .exited (mainRun cap argv) ∧
      mainStep cap ((mainStep cap)^[4] (.start argv)) =
        (mainStep cap)^[4] (.start argv) := by
  have h4 : (mainStep cap)^[4] (MainPhase.start argv)
      = mainStep cap (mainStep cap (mainStep cap (mainStep cap (.start argv)))) := by
    simp [Function.iterate_succ, Function.iterate_zero, Function.comp]
  rcases hp : parseArgs argv with m | _ | e
  · rcases hl : cap.load_standard_font with e | f
    · constructor
      · rw [h4]; simp [mainStep, mainRun, hp, hl]
      · rw [h4]; simp [mainStep, hp, hl]
    · rcases hr : cap.render f m with e | b
      · constructor
        · rw [h4]; simp [mainStep, mainRun, hp, hl, hr]
        · rw [h4]; simp [mainStep, hp, hl, hr]
      · constructor
        · rw [h4]; simp [mainStep, mainRun, hp, hl, hr]
        · rw [h4]; simp [mainStep, hp, hl, hr]
  · constructor
    · rw [h4]; simp [mainStep, mainRun, hp]
    · rw [h4]; simp [mainStep, hp]
  · constructor
    · rw [h4]; simp [mainStep, mainRun, hp]
    · rw [h4]; simp [mainStep, hp]

end FigletCtlSpec
